import Mathlib

/-!
Verification of the TeleSocial proxy API (`main.py`).

The repository is a single FastAPI endpoint `GET /download/` that forwards a
target URL to a fixed upstream service and relays the upstream response back
to the caller, either as a JSON passthrough or as a streamed binary download
with synthesized filename metadata.

This file shallow-embeds the handler as pure Lean functions.  The behaviour
of the single outbound HTTP call is an explicit input (`FetchOutcome`), the
Python `json.loads` parser is an explicit parameter of type
`String → Option Json`, and the relevant fragments of the Python standard
library (`urllib.parse.urlparse`, `os.path.basename`, `mimetypes
.guess_extension`, `str.isalnum`, `str.lower`, `str.strip`) are embedded as
executable definitions below.
-/

namespace TeleSocialProxy

/-! ## JSON values -/

/-- A JSON value, the shape returned by Python's `json.loads`.  Numbers are
modelled as integers; no claim depends on number representation. -/
inductive Json where
  | null
  | bool (b : Bool)
  | num (n : Int)
  | str (s : String)
  | arr (elems : List Json)
  | obj (entries : List (String × Json))

/-! ## Python string helpers -/

/-- ASCII lower-casing of one character, as `str.lower` acts on the ASCII
range (the only range exercised by the MIME types and header names here). -/
def lowerChar (c : Char) : Char :=
  if 'A' ≤ c && c ≤ 'Z' then Char.ofNat (c.toNat + 32) else c

/-- Models Python `str.lower` on the ASCII range. -/
def pyLower (s : String) : String :=
  String.mk (s.toList.map lowerChar)

/-- Contiguous sublist test: `needle` occurs as a consecutive run in `hay`. -/
def listIsInfix (needle hay : List Char) : Bool :=
  match hay with
  | [] => needle.isEmpty
  | _ :: t => needle.isPrefixOf hay || listIsInfix needle t

/-- Models the Python substring test `needle in hay` for strings. -/
def strContains (hay needle : String) : Bool :=
  listIsInfix needle.toList hay.toList

/-- Models `stem.lower().endswith(suffix.lower())` from the source. -/
def pyEndsWithCI (s suffix : String) : Bool :=
  (pyLower suffix).toList.isSuffixOf (pyLower s).toList

/-- Models CPython `str.isalnum` for code points below U+0100: ASCII letters
and digits, plus the Latin-1 letters U+00C0–U+00FF other than the
multiplication and division signs (U+00D7, U+00F7).  Python's `isalnum` is
Unicode-aware, so non-ASCII letters such as `é` count as alphanumeric. -/
def pyIsAlnum (c : Char) : Bool :=
  c.isAlphanum ||
    (0xC0 ≤ c.toNat && c.toNat ≤ 0xFF && !(c.toNat == 0xD7) && !(c.toNat == 0xF7))

/-- The character filter of line 129 of `main.py`:
`c.isalnum() or c in ['.', '_', '-']`. -/
def keepChar (c : Char) : Bool :=
  pyIsAlnum c || c == '.' || c == '_' || c == '-'

/-- Models `"".join(c for c in filename if c.isalnum() or c in ['.', '_', '-'])`. -/
def sanitizeChars (s : String) : String :=
  String.mk (s.toList.filter keepChar)

/-- Models Python `str.strip()` (strip leading and trailing whitespace). -/
def pyStrip (s : String) : String :=
  String.mk (((s.toList.dropWhile Char.isWhitespace).reverse.dropWhile
    Char.isWhitespace).reverse)

/-! ## Header dictionaries -/

/-- Case-insensitive header lookup, as `requests`' `CaseInsensitiveDict.get`:
returns the stored (original-case) value of the first matching key. -/
def headerGetCI (hs : List (String × String)) (key : String) : Option String :=
  (hs.find? (fun kv => pyLower kv.1 == pyLower key)).map (·.2)

/-- Case-sensitive lookup, as Python `dict.get` on `response_headers`. -/
def dictGet (hs : List (String × String)) (key : String) : Option String :=
  (hs.find? (fun kv => kv.1 == key)).map (·.2)

/-! ## `urllib.parse.urlparse` (path component) -/

/-- Characters allowed in a URL scheme (`scheme_chars` in `urllib.parse`). -/
def isSchemeChar (c : Char) : Bool :=
  ('a' ≤ c && c ≤ 'z') || ('A' ≤ c && c ≤ 'Z') || ('0' ≤ c && c ≤ '9') ||
    c == '+' || c == '-' || c == '.'

/-- WHATWG C0-control-or-space class stripped from the front of a URL. -/
def isC0OrSpace (c : Char) : Bool :=
  c.toNat ≤ 0x20

/-- Tab, carriage return and newline are removed from anywhere in the URL
(`_UNSAFE_URL_BYTES_TO_REMOVE`). -/
def removeUnsafe (l : List Char) : List Char :=
  l.filter (fun c => !(c == '\t') && !(c == '\r') && !(c == '\n'))

/-- Drop a leading `scheme:` when the prefix before the first `:` is a valid
scheme (first char an ASCII letter, all chars in `scheme_chars`). -/
def splitSchemeRest (l : List Char) : List Char :=
  match l.findIdx? (· == ':') with
  | some i =>
    if 0 < i then
      match l with
      | [] => l
      | c :: _ =>
        if c.toNat < 128 && c.isAlpha && (l.take i).all isSchemeChar then
          l.drop (i + 1)
        else l
    else l
  | none => l

/-- Index of the first of `/`, `?`, `#` in the netloc remainder
(`_splitnetloc`), or the length when none occurs. -/
def findDelim (l : List Char) : Nat :=
  (l.findIdx? (fun c => c == '/' || c == '?' || c == '#')).getD l.length

/-- The `Invalid IPv6 URL` check of `urlsplit`: a `[` without `]` in the
netloc, or vice versa, raises `ValueError`. -/
def bracketsUnbalanced (netloc : List Char) : Bool :=
  (netloc.contains '[' && !(netloc.contains ']')) ||
    (netloc.contains ']' && !(netloc.contains '['))

/-- First index `≥ start` at which `c` occurs (Python `str.find(c, start)`). -/
def findFrom (l : List Char) (c : Char) (start : Nat) : Option Nat :=
  ((l.drop start).findIdx? (· == c)).map (· + start)

/-- Index of the last occurrence of `c` (Python `str.rfind`). -/
def rfindIdx (l : List Char) (c : Char) : Option Nat :=
  (l.reverse.findIdx? (· == c)).map (fun j => l.length - 1 - j)

/-- `urlparse`'s `_splitparams`, applied when the path contains `;`: split
parameters off the last path segment, keeping only the part of the path
before the first `;` that follows the last `/`. -/
def splitParamsPath (p : List Char) : List Char :=
  if p.contains ';' then
    if p.contains '/' then
      match findFrom p ';' ((rfindIdx p '/').getD 0) with
      | some i => p.take i
      | none => p
    else
      match p.findIdx? (· == ';') with
      | some i => p.take i
      | none => p
  else p

/-- Models `urllib.parse.urlparse(url).path`: strip leading C0/space and all
tab/CR/LF, drop a valid `scheme:` prefix, consume a `//netloc` (raising
`ValueError`, i.e. `.error ()`, on unbalanced IPv6 brackets), drop the
fragment and then the query, and finally split parameters off the path.
The deep bracketed-host validation of recent CPython is not modelled. -/
def urlparse_path (url : String) : Except Unit String :=
  let l := removeUnsafe (url.toList.dropWhile isC0OrSpace)
  let rest := splitSchemeRest l
  if rest.take 2 = ['/', '/'] then
    let after := rest.drop 2
    let d := findDelim after
    if bracketsUnbalanced (after.take d) then .error ()
    else
      .ok (String.mk (splitParamsPath
        (((after.drop d).takeWhile (· ≠ '#')).takeWhile (· ≠ '?'))))
  else
    .ok (String.mk (splitParamsPath
      ((rest.takeWhile (· ≠ '#')).takeWhile (· ≠ '?'))))

/-- Models POSIX `os.path.basename`: everything after the last `/`. -/
def pyBasename (s : String) : String :=
  String.mk ((s.toList.reverse.takeWhile (· ≠ '/')).reverse)

/-- Models `path_basename.split("?")[0].split("#")[0]` from line 123. -/
def stripQueryFragment (s : String) : String :=
  String.mk ((s.toList.takeWhile (· ≠ '?')).takeWhile (· ≠ '#'))

/-! ## `mimetypes.guess_extension` -/

/-- The fragment of CPython's default `mimetypes` inverse table covering the
MIME types exercised in this development, mapping a MIME type to the first
guessed extension. -/
def mimeTypesTable : List (String × String) :=
  [("application/octet-stream", ".bin"),
   ("application/json", ".json"),
   ("application/pdf", ".pdf"),
   ("audio/mpeg", ".mp3"),
   ("image/jpeg", ".jpg"),
   ("image/png", ".png"),
   ("text/html", ".html"),
   ("text/plain", ".txt"),
   ("video/mp4", ".mp4"),
   ("video/webm", ".webm")]

/-- Models `mimetypes.guess_extension`: lower-case the full argument and look
it up verbatim in the table; a value that is not an exact table key (for
example one carrying `; charset=...` parameters) yields no extension. -/
def guess_extension (t : String) : Option String :=
  (mimeTypesTable.find? (fun p => p.1 == pyLower t)).map (·.2)

/-! ## `iter_content` chunking -/

/-- Models `resp.iter_content(chunk_size=n)`: the body bytes split into
consecutive chunks of `n` bytes, the last chunk possibly shorter. -/
def chunksOf (n : Nat) (l : List Nat) : List (List Nat) :=
  if h : l = [] ∨ n = 0 then []
  else l.take n :: chunksOf n (l.drop n)
termination_by l.length
decreasing_by
  push_neg at h
  obtain ⟨hl, hn⟩ := h
  have hpos : 0 < l.length := List.length_pos.mpr hl
  simp only [List.length_drop]
  omega

/-! ## Upstream model -/

/-- An upstream HTTP response as observed by the handler: status code,
headers (original case, case-insensitive lookup), the raw body bytes as they
arrive on the wire, and the outcome of reading the full body as text
(`resp.text`), which either yields the decoded text or raises with a
message. -/
structure UpstreamResponse where
  status_code : Nat
  headers : List (String × String)
  bodyBytes : List Nat
  textRead : Except String String

/-- What the single outbound `requests.get` call does: deliver a response,
or raise one of the exception classes caught in `_fetch_from_tele_social_sync`. -/
inductive FetchOutcome where
  | response (r : UpstreamResponse)
  | timeout
  | connectionError
  | requestException (msg : String)

/-- The exception tags of the result dictionary of `_fetch_from_tele_social_sync`. -/
inductive ExcType where
  | timeout
  | connectionError
  | requestException
deriving DecidableEq

/-- The tagged result dictionary returned by `_fetch_from_tele_social_sync`. -/
inductive FetchResult where
  | error_upstream (response_object : UpstreamResponse)
  | success (response_object : UpstreamResponse)
  | exception (exception_type : ExcType) (detail : String)

/-- Embedding of `_fetch_from_tele_social_sync` (lines 31–42): tag the
transport outcome, building the detail strings of the three `except` arms. -/
def _fetch_from_tele_social_sync (target_url : String) (outcome : FetchOutcome) :
    FetchResult :=
  match outcome with
  | .response r =>
    if 400 ≤ r.status_code then .error_upstream r else .success r
  | .timeout =>
    .exception .timeout ("Request to upstream API timed out for URL: " ++ target_url)
  | .connectionError =>
    .exception .connectionError ("Could not connect to upstream API for URL: " ++ target_url)
  | .requestException m =>
    .exception .requestException ("Upstream API request error for " ++ target_url ++ ": " ++ m)

/-- Embedding of `get_content_from_tele_social` (lines 44–56): map the three
exception tags to `HTTPException`s with statuses 504, 503 and 500, and
return the response object otherwise. -/
def get_content_from_tele_social (target_url : String) (outcome : FetchOutcome) :
    Except (Nat × String) UpstreamResponse :=
  match _fetch_from_tele_social_sync target_url outcome with
  | .exception .timeout d => .error (504, d)
  | .exception .connectionError d => .error (503, d)
  | .exception .requestException d => .error (500, d)
  | .success r => .ok r
  | .error_upstream r => .ok r

/-- Failure modes of `resp.json()` inside `_parse_json_and_close_sync`:
a `JSONDecodeError`, or any other exception (for example a failure while
reading the body). -/
inductive JsonFailure where
  | decodeFailure
  | readFailure (msg : String)

/-- Embedding of `_parse_json_and_close_sync` (lines 58–63): the parse
result together with the number of `resp.close()` calls performed — the
`finally` clause closes the response exactly once on every path. -/
def _parse_json_and_close_sync (jsonLoads : String → Option Json)
    (resp : UpstreamResponse) : Except JsonFailure Json × Nat :=
  ((match resp.textRead with
    | .error m => .error (.readFailure m)
    | .ok t =>
      match jsonLoads t with
      | some j => .ok j
      | none => .error .decodeFailure), 1)

/-- Embedding of `_read_text_and_close_sync` (lines 65–70): the text-read
result together with the number of `resp.close()` calls — the `finally`
clause closes the response exactly once whether `resp.text` raises or not. -/
def _read_text_and_close_sync (resp : UpstreamResponse) :
    Except String String × Nat :=
  (resp.textRead, 1)

/-! ## Outward responses -/

/-- The outward response produced by the handler: a `JSONResponse`, an
`HTTPException` (rendered by FastAPI as a JSON error body with the given
status and detail), or a `StreamingResponse` carrying headers and the chunk
sequence produced by the streaming generator on a full drain. -/
inductive Outward where
  | jsonResp (status_code : Nat) (content : Json)
  | httpError (status_code : Nat) (detail : String)
  | streaming (status_code : Nat) (headers : List (String × String))
      (chunks : List (List Nat))

/-- Status code of an outward response. -/
def outwardStatus : Outward → Nat
  | .jsonResp s _ => s
  | .httpError s _ => s
  | .streaming s _ _ => s

/-! ## Filename synthesis (lines 115–133) -/

/-- The `Content-Type` entry of `response_headers` as built at lines 111–113:
the upstream value copied verbatim (original case) when present. -/
def ctHeaderList (r : UpstreamResponse) : List (String × String) :=
  match headerGetCI r.headers "content-type" with
  | some v => [("Content-Type", v)]
  | none => []

/-- The pre-sanitization filename of lines 120–128: the basename of the
parsed path, with query/fragment remnants stripped and the guessed extension
appended when it is not already a case-insensitive suffix; `downloaded_file`
when the basename is empty. -/
def preSanitizeName (path : String) (response_headers : List (String × String)) :
    String :=
  if pyBasename path ≠ "" then
    match guess_extension ((dictGet response_headers "Content-Type").getD
        "application/octet-stream") with
    | some ge =>
      if pyEndsWithCI (stripQueryFragment (pyBasename path)) ge = false then
        stripQueryFragment (pyBasename path) ++ ge
      else stripQueryFragment (pyBasename path)
    | none => stripQueryFragment (pyBasename path)
  else "downloaded_file"

/-- Line 130: an empty sanitized name falls back to `downloaded_file`. -/
def fallbackName (s : String) : String :=
  if s = "" then "downloaded_file" else s

/-- The filename placed in the synthesized `Content-Disposition` header:
derivation of lines 119–130, with the `except` arm of line 132 mapping any
`ValueError` from `urlparse` to the literal fallback name. -/
def synthFilename (url : String) (response_headers : List (String × String)) :
    String :=
  match urlparse_path url with
  | .error _ => "downloaded_file"
  | .ok path => fallbackName (pyStrip (sanitizeChars (preSanitizeName path response_headers)))

/-- The synthesized `Content-Disposition` header value of lines 118–133. -/
def synthesizeDisposition (url : String)
    (response_headers : List (String × String)) : String :=
  "attachment; filename=\"" ++ synthFilename url response_headers ++ "\""

/-- The outward headers of the streaming branch (lines 111–136):
`Content-Type` copied when present, `Content-Disposition` copied or
synthesized, `Content-Length` copied when present. -/
def buildStreamHeaders (url : String) (r : UpstreamResponse) :
    List (String × String) :=
  let h0 := ctHeaderList r
  let h1 := h0 ++
    (match headerGetCI r.headers "content-disposition" with
     | some v => [("Content-Disposition", v)]
     | none => [("Content-Disposition", synthesizeDisposition url h0)])
  h1 ++
    (match headerGetCI r.headers "content-length" with
     | some v => [("Content-Length", v)]
     | none => [])

/-! ## The handler -/

/-- Embedding of the endpoint `download_content_via_proxy` (lines 72–149).
`jsonLoads` is Python's `json.loads` (`none` models `JSONDecodeError`);
`outcome` is what the single outbound call does.  The streaming branch
records the headers and the full chunk sequence of the generator. -/
def download_content_via_proxy (jsonLoads : String → Option Json)
    (url : String) (outcome : FetchOutcome) : Outward :=
  if url = "" then
    .httpError 400 "The 'url' query parameter is required."
  else
    match get_content_from_tele_social url outcome with
    | .error e => .httpError e.1 e.2
    | .ok r =>
      if 400 ≤ r.status_code then
        match (_read_text_and_close_sync r).1 with
        | .ok t =>
          match jsonLoads t with
          | some j => .jsonResp r.status_code j
          | none =>
            .jsonResp r.status_code (Json.obj
              [("error", Json.str "Upstream API error"),
               ("details", Json.str t),
               ("upstream_status_code", Json.num r.status_code)])
        | .error m =>
          .httpError 502 ("Failed to read or process error response from upstream API: " ++ m)
      else
        if strContains (pyLower ((headerGetCI r.headers "content-type").getD ""))
            "application/json" then
          match (_parse_json_and_close_sync jsonLoads r).1 with
          | .ok j => .jsonResp r.status_code j
          | .error .decodeFailure =>
            .httpError 502 "Upstream API returned malformed JSON despite declaring JSON content type."
          | .error (.readFailure _) =>
            .httpError 500 "Server error while processing upstream JSON response."
        else
          .streaming r.status_code (buildStreamHeaders url r)
            (chunksOf 65536 r.bodyBytes)

/-! ## FastAPI dispatch -/

/-- Result of dispatching an inbound request: rejected by framework
validation before the handler runs, or handled by the endpoint. -/
inductive DispatchResult where
  | validationError (status_code : Nat)
  | handled (response : Outward)

/-- Models FastAPI's request dispatch for `GET /download/`: `url` is declared
as a required query parameter via `Query(...)`, so a request without it is
rejected by the framework with a 422 validation error before the handler
body runs; when the parameter is present (possibly as the empty string) the
handler is invoked with its value. -/
def dispatchDownload (jsonLoads : String → Option Json)
    (urlParam : Option String) (outcome : FetchOutcome) : DispatchResult :=
  match urlParam with
  | none => .validationError 422
  | some u => .handled (download_content_via_proxy jsonLoads u outcome)

/-- Status code of a dispatch result. -/
def dispatchStatus : DispatchResult → Nat
  | .validationError s => s
  | .handled o => outwardStatus o

/-! ## Streaming generator and connection-release accounting -/

/-- Events produced by running `file_streaming_generator`: a yielded chunk,
or the `resp.close()` performed by the `finally` clause. -/
inductive StreamEvent where
  | chunk (data : List Nat)
  | closeUpstream
deriving DecidableEq

/-- Embedding of `file_streaming_generator` (lines 138–143) as its event
trace: the generator yields the chunks in order until it is exhausted, or
until the consumer abandons it after `k` chunks (client disconnect /
downstream error), and in either case the `finally` clause then closes the
upstream response. -/
def file_streaming_generator (chunks : List (List Nat))
    (consumed : Option Nat) : List StreamEvent :=
  (match consumed with
   | none => chunks
   | some k => chunks.take k).map StreamEvent.chunk ++ [StreamEvent.closeUpstream]

/-- Number of `resp.close()` calls in a generator trace. -/
def countCloses : List StreamEvent → Nat
  | [] => 0
  | .closeUpstream :: t => countCloses t + 1
  | .chunk _ :: t => countCloses t

/-- Number of `resp.close()` calls performed on the upstream response over
the whole request, following the handler's branch structure: the helpers
`_read_text_and_close_sync` and `_parse_json_and_close_sync` report their
own close counts, and the streaming branch closes inside the generator's
`finally` clause (`consumed` is the point of client disconnect, if any). -/
def upstreamCloseCount (jsonLoads : String → Option Json) (url : String)
    (outcome : FetchOutcome) (consumed : Option Nat) : Nat :=
  if url = "" then 0
  else
    match get_content_from_tele_social url outcome with
    | .error _ => 0
    | .ok r =>
      if 400 ≤ r.status_code then (_read_text_and_close_sync r).2
      else
        if strContains (pyLower ((headerGetCI r.headers "content-type").getD ""))
            "application/json" then
          (_parse_json_and_close_sync jsonLoads r).2
        else
          countCloses (file_streaming_generator (chunksOf 65536 r.bodyBytes) consumed)

/-! ## Helper lemmas -/

/-- Unfolding equation of `chunksOf`. -/
theorem chunksOf_unfold (n : Nat) (l : List Nat) :
    chunksOf n l =
      if l = [] ∨ n = 0 then [] else l.take n :: chunksOf n (l.drop n) := by
  rw [chunksOf]
  split <;> rfl

/-- Joining the chunks of `iter_content` recovers the body bytes exactly. -/
theorem chunksOf_flatten (n : Nat) (hn : n ≠ 0) (l : List Nat) :
    (chunksOf n l).flatten = l := by
  have H : ∀ (k : Nat) (l : List Nat), l.length = k → (chunksOf n l).flatten = l := by
    intro k
    induction k using Nat.strong_induction_on with
    | _ k ih =>
      intro l hk
      rw [chunksOf_unfold]
      by_cases h : l = [] ∨ n = 0
      · rcases h with h | h
        · simp [h]
        · exact absurd h hn
      · push_neg at h
        rw [if_neg (by push_neg; exact h)]
        rw [List.flatten_cons]
        have hpos : 0 < l.length := List.length_pos.mpr h.1
        rw [ih (l.drop n).length (by simp only [List.length_drop]; omega)
          (l.drop n) rfl]
        exact List.take_append_drop n l
  exact H l.length l rfl

/-- Every chunk produced by `iter_content` is nonempty and at most `n` long. -/
theorem chunksOf_mem (n : Nat) (hn : n ≠ 0) (l : List Nat) :
    ∀ c ∈ chunksOf n l, 0 < c.length ∧ c.length ≤ n := by
  have H : ∀ (k : Nat) (l : List Nat), l.length = k →
      ∀ c ∈ chunksOf n l, 0 < c.length ∧ c.length ≤ n := by
    intro k
    induction k using Nat.strong_induction_on with
    | _ k ih =>
      intro l hk c hc
      rw [chunksOf_unfold] at hc
      by_cases h : l = [] ∨ n = 0
      · rw [if_pos h] at hc
        exact absurd hc (List.not_mem_nil c)
      · push_neg at h
        rw [if_neg (by push_neg; exact h)] at hc
        have hpos : 0 < l.length := List.length_pos.mpr h.1
        rcases List.mem_cons.mp hc with hc | hc
        · subst hc
          constructor
          · simp only [List.length_take]
            omega
          · simp only [List.length_take]
            omega
        · exact ih (l.drop n).length (by simp only [List.length_drop]; omega)
            (l.drop n) rfl c hc
  exact H l.length l rfl

/-- Every chunk except possibly the last has length exactly `n`. -/
theorem chunksOf_dropLast (n : Nat) (l : List Nat) :
    ∀ c ∈ (chunksOf n l).dropLast, c.length = n := by
  have H : ∀ (k : Nat) (l : List Nat), l.length = k →
      ∀ c ∈ (chunksOf n l).dropLast, c.length = n := by
    intro k
    induction k using Nat.strong_induction_on with
    | _ k ih =>
      intro l hk c hc
      rw [chunksOf_unfold] at hc
      by_cases h : l = [] ∨ n = 0
      · rw [if_pos h] at hc
        exact absurd hc (List.not_mem_nil c)
      · push_neg at h
        rw [if_neg (by push_neg; exact h)] at hc
        have hpos : 0 < l.length := List.length_pos.mpr h.1
        rcases hrest : chunksOf n (l.drop n) with _ | ⟨a, t⟩
        · rw [hrest] at hc
          simp at hc
        · rw [hrest, List.dropLast_cons₂] at hc
          rcases List.mem_cons.mp hc with hc | hc
          · subst hc
            have hne : l.drop n ≠ [] := by
              intro hd
              rw [chunksOf_unfold, if_pos (Or.inl hd)] at hrest
              exact List.noConfusion hrest
            have hlen : n < l.length := by
              have := List.length_pos.mpr hne
              simp only [List.length_drop] at this
              omega
            simp only [List.length_take]
            omega
          · refine ih (l.drop n).length (by simp only [List.length_drop]; omega)
              (l.drop n) rfl c ?_
            rw [hrest]
            exact hc
  exact H l.length l rfl

/-- The generator trace closes the upstream response exactly once, whether
it is drained fully or abandoned after any number of chunks. -/
theorem countCloses_generator (chunks : List (List Nat)) (consumed : Option Nat) :
    countCloses (file_streaming_generator chunks consumed) = 1 := by
  have haux : ∀ cs : List (List Nat),
      countCloses (cs.map StreamEvent.chunk ++ [StreamEvent.closeUpstream]) = 1 := by
    intro cs
    induction cs with
    | nil => rfl
    | cons a t iht => simpa [countCloses] using iht
  unfold file_streaming_generator
  cases consumed <;> exact haux _

/-- A transport-level success always hands the response object back to the
handler, for error statuses and success statuses alike. -/
theorem get_content_response (url : String) (r : UpstreamResponse) :
    get_content_from_tele_social url (.response r) = .ok r := by
  unfold get_content_from_tele_social _fetch_from_tele_social_sync
  by_cases h : 400 ≤ r.status_code <;> simp [h]

/-- Characters surviving sanitization all satisfy the filter of line 129. -/
theorem mem_pyStrip_sanitize (s : String) :
    ∀ c ∈ (pyStrip (sanitizeChars s)).toList, keepChar c = true := by
  intro c hc
  unfold pyStrip sanitizeChars at hc
  have h1 : c ∈ s.toList.filter keepChar := by
    have h2 := (List.mem_reverse).mp hc
    have h3 := (List.dropWhile_sublist (l := ((String.mk (s.toList.filter keepChar)).toList.dropWhile Char.isWhitespace).reverse) Char.isWhitespace).mem h2
    have h4 := (List.mem_reverse).mp h3
    exact (List.dropWhile_sublist Char.isWhitespace).mem h4
  exact (List.mem_filter.mp h1).2

/-- Reduction of `synthFilename` when `urlparse` succeeds. -/
theorem synthFilename_ok (url p : String) (rh : List (String × String))
    (hp : urlparse_path url = .ok p) :
    synthFilename url rh =
      fallbackName (pyStrip (sanitizeChars (preSanitizeName p rh))) := by
  unfold synthFilename
  rw [hp]

/-- Reduction of `synthFilename` when `urlparse` raises. -/
theorem synthFilename_err (url : String) (rh : List (String × String))
    (hp : urlparse_path url = .error ()) :
    synthFilename url rh = "downloaded_file" := by
  unfold synthFilename
  rw [hp]

/-- A MIME type containing `;` (for example one with parameters) never
matches the `mimetypes` table, so no extension is guessed. -/
theorem guess_extension_semicolon (t : String) (h : ';' ∈ t.toList) :
    guess_extension t = none := by
  unfold guess_extension
  rw [List.find?_eq_none.mpr]
  · rfl
  · intro p hp hbeq
    have hpl : p.1 = pyLower t := eq_of_beq hbeq
    have hsemi : ';' ∈ (pyLower t).toList := by
      unfold pyLower
      have hmem := List.mem_map_of_mem lowerChar h
      have hlc : lowerChar ';' = ';' := by decide
      rw [hlc] at hmem
      exact hmem
    rw [← hpl] at hsemi
    fin_cases hp <;> revert hsemi <;> decide

/-! ## Claim theorems -/

/-- C1: for every upstream response with status ≥ 400 the handler reads the
full body as text and returns, with the upstream's status code, the parsed
JSON when the text parses, or the structured error object
`{error, details, upstream_status_code}` when it does not; when reading the
body itself raises, the outward response is a 502 with a detail message.
No hypothesis constrains the `Content-Type` header, so this branch takes
precedence over the JSON and streaming branches. -/
theorem c1_upstream_error_branch (jsonLoads : String → Option Json)
    (url : String) (r : UpstreamResponse)
    (hu : url ≠ "") (hs : 400 ≤ r.status_code) :
    (∀ t j, r.textRead = .ok t → jsonLoads t = some j →
        download_content_via_proxy jsonLoads url (.response r) =
          .jsonResp r.status_code j)
  ∧ (∀ t, r.textRead = .ok t → jsonLoads t = none →
        download_content_via_proxy jsonLoads url (.response r) =
          .jsonResp r.status_code (Json.obj
            [("error", Json.str "Upstream API error"),
             ("details", Json.str t),
             ("upstream_status_code", Json.num r.status_code)]))
  ∧ (∀ m, r.textRead = .error m →
        download_content_via_proxy jsonLoads url (.response r) =
          .httpError 502
            ("Failed to read or process error response from upstream API: " ++ m)) := by
  refine ⟨?_, ?_, ?_⟩
  · intro t j ht hj
    unfold download_content_via_proxy
    rw [if_neg hu, get_content_response]
    simp only [_read_text_and_close_sync, if_pos hs, ht, hj]
  · intro t ht hj
    unfold download_content_via_proxy
    rw [if_neg hu, get_content_response]
    simp only [_read_text_and_close_sync, if_pos hs, ht, hj]
  · intro m hm
    unfold download_content_via_proxy
    rw [if_neg hu, get_content_response]
    simp only [_read_text_and_close_sync, if_pos hs, hm]

/-- Witness for C1: a concrete 500 upstream response with a non-JSON body
yields the structured error object with the upstream status. -/
theorem c1_upstream_error_branch_witness :
    download_content_via_proxy (fun _ => none) "u"
        (.response ⟨500, [], [], .ok "oops"⟩) =
      .jsonResp 500 (Json.obj
        [("error", Json.str "Upstream API error"),
         ("details", Json.str "oops"),
         ("upstream_status_code", Json.num 500)]) :=
  (c1_upstream_error_branch (fun _ => none) "u" ⟨500, [], [], .ok "oops"⟩
    (by decide) (by decide)).2.1 "oops" rfl rfl

/-- C2: for every upstream response with status < 400, a `Content-Type`
containing `application/json` (case-insensitive substring) and a body that
parses as JSON, the outward response carries the upstream status code and
exactly the parsed JSON value. -/
theorem c2_json_passthrough (jsonLoads : String → Option Json)
    (url : String) (r : UpstreamResponse) (t : String) (j : Json)
    (hu : url ≠ "") (hs : r.status_code < 400)
    (hct : strContains (pyLower ((headerGetCI r.headers "content-type").getD ""))
      "application/json" = true)
    (ht : r.textRead = .ok t) (hj : jsonLoads t = some j) :
    download_content_via_proxy jsonLoads url (.response r) =
      .jsonResp r.status_code j := by
  unfold download_content_via_proxy
  rw [if_neg hu, get_content_response]
  simp only [_parse_json_and_close_sync, if_neg (Nat.not_le.mpr hs), hct,
    if_pos rfl, if_true, ht, hj]

/-- Witness for C2: a concrete 200 JSON upstream response is passed through
verbatim. -/
theorem c2_json_passthrough_witness :
    download_content_via_proxy
        (fun s => if s = "[1]" then some (Json.arr [Json.num 1]) else none) "u"
        (.response ⟨200, [("Content-Type", "Application/JSON; charset=utf-8")],
          [], .ok "[1]"⟩) =
      .jsonResp 200 (Json.arr [Json.num 1]) :=
  c2_json_passthrough
    (fun s => if s = "[1]" then some (Json.arr [Json.num 1]) else none) "u"
    ⟨200, [("Content-Type", "Application/JSON; charset=utf-8")], [], .ok "[1]"⟩
    "[1]" (Json.arr [Json.num 1]) (by decide) (by decide) (by decide) rfl rfl

/-- C6: for every upstream response with status < 400 declaring a JSON
content type but whose body is not valid JSON, the outward response is a 502
with the fixed malformed-JSON detail, and any other failure while processing
this branch (a raising body read) yields a 500. -/
theorem c6_declared_json_failures (jsonLoads : String → Option Json)
    (url : String) (r : UpstreamResponse)
    (hu : url ≠ "") (hs : r.status_code < 400)
    (hct : strContains (pyLower ((headerGetCI r.headers "content-type").getD ""))
      "application/json" = true) :
    (∀ t, r.textRead = .ok t → jsonLoads t = none →
        download_content_via_proxy jsonLoads url (.response r) =
          .httpError 502
            "Upstream API returned malformed JSON despite declaring JSON content type.")
  ∧ (∀ m, r.textRead = .error m →
        download_content_via_proxy jsonLoads url (.response r) =
          .httpError 500 "Server error while processing upstream JSON response.") := by
  constructor
  · intro t ht hj
    unfold download_content_via_proxy
    rw [if_neg hu, get_content_response]
    simp only [_parse_json_and_close_sync, if_neg (Nat.not_le.mpr hs), hct,
      if_pos rfl, if_true, ht, hj]
  · intro m hm
    unfold download_content_via_proxy
    rw [if_neg hu, get_content_response]
    simp only [_parse_json_and_close_sync, if_neg (Nat.not_le.mpr hs), hct,
      if_pos rfl, if_true, hm]

/-- Witness for C6: a concrete 200 response declaring JSON with an unparsable
body produces the 502 contract-violation error. -/
theorem c6_declared_json_failures_witness :
    download_content_via_proxy (fun _ => none) "u"
        (.response ⟨200, [("content-type", "application/json")], [], .ok "<html>"⟩) =
      .httpError 502
        "Upstream API returned malformed JSON despite declaring JSON content type." :=
  (c6_declared_json_failures (fun _ => none) "u"
    ⟨200, [("content-type", "application/json")], [], .ok "<html>"⟩
    (by decide) (by decide) (by decide)).1 "<html>" rfl rfl

/-- C4: transport-level failures of the single upstream call map to distinct
outward statuses — timeout to 504, connection failure to 503, any other
transport exception to 500 — and each detail message names the failing
target URL as a substring. -/
theorem c4_transport_error_mapping (jsonLoads : String → Option Json)
    (url : String) (m : String) (hu : url ≠ "") :
    (download_content_via_proxy jsonLoads url .timeout =
        .httpError 504 ("Request to upstream API timed out for URL: " ++ url)
      ∧ ∃ pre post, "Request to upstream API timed out for URL: " ++ url =
          pre ++ url ++ post)
  ∧ (download_content_via_proxy jsonLoads url .connectionError =
        .httpError 503 ("Could not connect to upstream API for URL: " ++ url)
      ∧ ∃ pre post, "Could not connect to upstream API for URL: " ++ url =
          pre ++ url ++ post)
  ∧ (download_content_via_proxy jsonLoads url (.requestException m) =
        .httpError 500 ("Upstream API request error for " ++ url ++ ": " ++ m)
      ∧ ∃ pre post, "Upstream API request error for " ++ url ++ ": " ++ m =
          pre ++ url ++ post) := by
  refine ⟨⟨?_, ?_⟩, ⟨?_, ?_⟩, ⟨?_, ?_⟩⟩
  · unfold download_content_via_proxy get_content_from_tele_social
      _fetch_from_tele_social_sync
    rw [if_neg hu]
  · exact ⟨"Request to upstream API timed out for URL: ", "", by simp⟩
  · unfold download_content_via_proxy get_content_from_tele_social
      _fetch_from_tele_social_sync
    rw [if_neg hu]
  · exact ⟨"Could not connect to upstream API for URL: ", "", by simp⟩
  · unfold download_content_via_proxy get_content_from_tele_social
      _fetch_from_tele_social_sync
    rw [if_neg hu]
  · exact ⟨"Upstream API request error for ", ": " ++ m, by simp [String.append_assoc]⟩

/-- Witness for C4: the three transport failures at a concrete URL. -/
theorem c4_transport_error_mapping_witness :
    download_content_via_proxy (fun _ => none) "https://t.example/v" .timeout =
        .httpError 504
          "Request to upstream API timed out for URL: https://t.example/v"
  ∧ download_content_via_proxy (fun _ => none) "https://t.example/v" .connectionError =
        .httpError 503
          "Could not connect to upstream API for URL: https://t.example/v"
  ∧ download_content_via_proxy (fun _ => none) "https://t.example/v"
        (.requestException "boom") =
      .httpError 500
        "Upstream API request error for https://t.example/v: boom" :=
  ⟨((c4_transport_error_mapping (fun _ => none) "https://t.example/v" "boom"
      (by decide)).1).1,
   ((c4_transport_error_mapping (fun _ => none) "https://t.example/v" "boom"
      (by decide)).2.1).1,
   ((c4_transport_error_mapping (fun _ => none) "https://t.example/v" "boom"
      (by decide)).2.2).1⟩

/-- C3: for every upstream response with status < 400 and a non-JSON content
type, the outward response streams exactly the bytes of the upstream body in
arrival order, split into 64 KiB chunks (every chunk nonempty and at most
64 KiB, every chunk but the last exactly 64 KiB), and the outward
`Content-Length` header is the upstream one, so that when the upstream
header is accurate the total streamed byte count equals it. -/
theorem c3_streaming_relay (jsonLoads : String → Option Json)
    (url : String) (r : UpstreamResponse)
    (hu : url ≠ "") (hs : r.status_code < 400)
    (hct : strContains (pyLower ((headerGetCI r.headers "content-type").getD ""))
      "application/json" = false) :
    download_content_via_proxy jsonLoads url (.response r) =
      .streaming r.status_code (buildStreamHeaders url r)
        (chunksOf 65536 r.bodyBytes)
  ∧ (chunksOf 65536 r.bodyBytes).flatten = r.bodyBytes
  ∧ (∀ c ∈ chunksOf 65536 r.bodyBytes, 0 < c.length ∧ c.length ≤ 65536)
  ∧ (∀ c ∈ (chunksOf 65536 r.bodyBytes).dropLast, c.length = 65536)
  ∧ (∀ v, headerGetCI r.headers "content-length" = some v →
      dictGet (buildStreamHeaders url r) "Content-Length" = some v
      ∧ (v = toString r.bodyBytes.length →
          v = toString ((chunksOf 65536 r.bodyBytes).flatten).length)) := by
  refine ⟨?_, chunksOf_flatten 65536 (by decide) r.bodyBytes,
    chunksOf_mem 65536 (by decide) r.bodyBytes,
    chunksOf_dropLast 65536 r.bodyBytes, ?_⟩
  · unfold download_content_via_proxy
    rw [if_neg hu, get_content_response]
    simp only [if_neg (Nat.not_le.mpr hs), hct, Bool.false_eq_true, if_false]
  · intro v hv
    constructor
    · rcases h1 : headerGetCI r.headers "content-type" with _ | v1 <;>
        rcases h2 : headerGetCI r.headers "content-disposition" with _ | v2 <;>
          simp [buildStreamHeaders, ctHeaderList, dictGet, h1, h2, hv]
    · intro hacc
      rw [chunksOf_flatten 65536 (by decide) r.bodyBytes]
      exact hacc

/-- Witness for C3: a concrete three-byte body is relayed as a single chunk
equal to the body, and the upstream `Content-Length` is copied outward. -/
theorem c3_streaming_relay_witness :
    download_content_via_proxy (fun _ => none) "u"
        (.response ⟨200, [("Content-Type", "video/mp4"), ("Content-Length", "3")],
          [7, 8, 9], .ok ""⟩) =
      .streaming 200
        (buildStreamHeaders "u"
          ⟨200, [("Content-Type", "video/mp4"), ("Content-Length", "3")],
            [7, 8, 9], .ok ""⟩)
        (chunksOf 65536 [7, 8, 9])
  ∧ (chunksOf 65536 [7, 8, 9]).flatten = [7, 8, 9]
  ∧ dictGet
      (buildStreamHeaders "u"
        ⟨200, [("Content-Type", "video/mp4"), ("Content-Length", "3")],
          [7, 8, 9], .ok ""⟩) "Content-Length" = some "3" := by
  have h := c3_streaming_relay (fun _ => none) "u"
    ⟨200, [("Content-Type", "video/mp4"), ("Content-Length", "3")], [7, 8, 9], .ok ""⟩
    (by decide) (by decide) (by decide)
  exact ⟨h.1, h.2.1, (h.2.2.2.2 "3" rfl).1⟩

/-- C5 counterexample: a request with the `url` query parameter absent is
rejected by FastAPI's validation of the required `Query(...)` parameter with
status 422, not 400 as the claim states. -/
theorem c5_counterexample :
    dispatchStatus (dispatchDownload (fun _ => none) none .timeout) = 422
  ∧ (422 : Nat) ≠ 400 :=
  ⟨rfl, by decide⟩

/-- C5 (amended): a request with the `url` parameter absent is rejected by
framework validation with status 422, and one with `url` equal to the empty
string gets a 400 with detail `The 'url' query parameter is required.`; in
both cases the outward response is independent of the upstream transport
outcome, so no outbound call is observable. -/
theorem c5_missing_url (jsonLoads : String → Option Json)
    (o1 o2 : FetchOutcome) :
    dispatchDownload jsonLoads none o1 = .validationError 422
  ∧ dispatchDownload jsonLoads none o1 = dispatchDownload jsonLoads none o2
  ∧ download_content_via_proxy jsonLoads "" o1 =
      .httpError 400 "The 'url' query parameter is required."
  ∧ download_content_via_proxy jsonLoads "" o1 =
      download_content_via_proxy jsonLoads "" o2 := by
  refine ⟨rfl, rfl, ?_, ?_⟩
  · unfold download_content_via_proxy
    rw [if_pos rfl]
  · unfold download_content_via_proxy
    rw [if_pos rfl, if_pos rfl]

/-- C9: whenever an upstream response object is obtained, the upstream
connection is closed exactly once, on the error-body branch, the JSON
branch, and the streaming branch for every consumption point (full drain or
abandonment after any number of chunks). -/
theorem c9_close_exactly_once (jsonLoads : String → Option Json)
    (url : String) (r : UpstreamResponse) (consumed : Option Nat)
    (hu : url ≠ "") :
    upstreamCloseCount jsonLoads url (.response r) consumed = 1 := by
  unfold upstreamCloseCount
  rw [if_neg hu, get_content_response]
  by_cases h4 : 400 ≤ r.status_code
  · simp only [if_pos h4, _read_text_and_close_sync]
  · by_cases hct : strContains
        (pyLower ((headerGetCI r.headers "content-type").getD ""))
        "application/json" = true
    · simp only [if_neg h4, hct, if_true, _parse_json_and_close_sync]
    · rw [Bool.not_eq_true] at hct
      simp only [if_neg h4, hct, Bool.false_eq_true, if_false,
        countCloses_generator]

/-- Witness for C9: the close count is 1 for a concrete streamed response
abandoned before its first chunk. -/
theorem c9_close_exactly_once_witness :
    upstreamCloseCount (fun _ => none) "u"
      (.response ⟨200, [], [5], .ok ""⟩) (some 0) = 1 :=
  c9_close_exactly_once (fun _ => none) "u" ⟨200, [], [5], .ok ""⟩ (some 0)
    (by decide)

/-- C7: in the streaming branch with no upstream `Content-Disposition`, the
synthesized filename is the final path segment of the target URL with
query/fragment remnants stripped, with the guessed extension appended when
the guess succeeds and the stem does not already end with it
(case-insensitive); an empty path segment yields `downloaded_file`; and a
`urlparse` failure never fails the request but falls back to the literal
`downloaded_file` name, the response still being streamed. -/
theorem c7_filename_derivation (jsonLoads : String → Option Json)
    (url : String) (r : UpstreamResponse)
    (hu : url ≠ "") (hs : r.status_code < 400)
    (hct : strContains (pyLower ((headerGetCI r.headers "content-type").getD ""))
      "application/json" = false)
    (hcd : headerGetCI r.headers "content-disposition" = none) :
    dictGet (buildStreamHeaders url r) "Content-Disposition" =
      some ("attachment; filename=\"" ++ synthFilename url (ctHeaderList r) ++ "\"")
  ∧ download_content_via_proxy jsonLoads url (.response r) =
      .streaming r.status_code (buildStreamHeaders url r)
        (chunksOf 65536 r.bodyBytes)
  ∧ (urlparse_path url = .error () →
      synthFilename url (ctHeaderList r) = "downloaded_file")
  ∧ (∀ p, urlparse_path url = .ok p →
      (pyBasename p = "" → synthFilename url (ctHeaderList r) = "downloaded_file")
      ∧ (pyBasename p ≠ "" →
        (∀ ge, guess_extension ((dictGet (ctHeaderList r) "Content-Type").getD
            "application/octet-stream") = some ge →
          (pyEndsWithCI (stripQueryFragment (pyBasename p)) ge = false →
            synthFilename url (ctHeaderList r) = fallbackName (pyStrip
              (sanitizeChars (stripQueryFragment (pyBasename p) ++ ge))))
          ∧ (pyEndsWithCI (stripQueryFragment (pyBasename p)) ge = true →
            synthFilename url (ctHeaderList r) = fallbackName (pyStrip
              (sanitizeChars (stripQueryFragment (pyBasename p))))))
        ∧ (guess_extension ((dictGet (ctHeaderList r) "Content-Type").getD
            "application/octet-stream") = none →
          synthFilename url (ctHeaderList r) = fallbackName (pyStrip
            (sanitizeChars (stripQueryFragment (pyBasename p))))))) := by
  refine ⟨?_, ?_, ?_, ?_⟩
  · rcases h1 : headerGetCI r.headers "content-type" with _ | v1 <;>
      rcases h3 : headerGetCI r.headers "content-length" with _ | v3 <;>
        simp [buildStreamHeaders, ctHeaderList, dictGet, h1, h3, hcd,
          synthesizeDisposition]
  · unfold download_content_via_proxy
    rw [if_neg hu, get_content_response]
    simp only [if_neg (Nat.not_le.mpr hs), hct, Bool.false_eq_true, if_false]
  · intro he
    unfold synthFilename
    rw [he]
  · intro p hp
    rw [synthFilename_ok url p (ctHeaderList r) hp]
    refine ⟨?_, ?_⟩
    · intro hb
      unfold preSanitizeName
      rw [hb]
      rw [if_neg (by decide)]
      decide
    · intro hb
      refine ⟨?_, ?_⟩
      · intro ge hge
        refine ⟨?_, ?_⟩
        · intro hsfx
          unfold preSanitizeName
          rw [if_pos hb]
          simp only [hge, hsfx, if_pos rfl, if_true]
        · intro hsfx
          unfold preSanitizeName
          rw [if_pos hb]
          simp only [hge, hsfx, Bool.true_eq_false, if_false]
      · intro hge
        unfold preSanitizeName
        rw [if_pos hb]
        simp only [hge]

/-- Witness for C7: the spec's own example — target URL
`https://x.test/p/abc.def?x=1` with upstream `Content-Type: video/mp4` and
no `Content-Disposition` yields the filename `abc.def.mp4`. -/
theorem c7_filename_derivation_witness :
    synthFilename "https://x.test/p/abc.def?x=1"
        (ctHeaderList ⟨200, [("Content-Type", "video/mp4")], [], .ok ""⟩) =
      "abc.def.mp4" := by
  have h := c7_filename_derivation (fun _ => none) "https://x.test/p/abc.def?x=1"
    ⟨200, [("Content-Type", "video/mp4")], [], .ok ""⟩
    (by decide) (by decide) (by decide) (by decide)
  have h2 := (((h.2.2.2 "/p/abc.def" rfl).2 (by decide)).1 ".mp4"
    (by decide)).1 (by decide)
  exact h2.trans (by decide)

/-- C8 counterexample: for target URL `https://x.test/é` (whose path segment
is the Unicode letter `é`, alphanumeric for Python's `str.isalnum`) and
upstream `Content-Type: video/mp4`, the synthesized filename is `é.mp4`,
which contains a character outside `[A-Za-z0-9._-]`. -/
theorem c8_counterexample :
    dictGet (buildStreamHeaders "https://x.test/é"
        ⟨200, [("Content-Type", "video/mp4")], [], .ok ""⟩) "Content-Disposition" =
      some "attachment; filename=\"é.mp4\""
  ∧ ("é.mp4".toList.all (fun c =>
      ('A' ≤ c && c ≤ 'Z') || ('a' ≤ c && c ≤ 'z') || ('0' ≤ c && c ≤ '9') ||
        c == '.' || c == '_' || c == '-')) = false := by
  constructor
  · decide
  · decide

/-- C8 (amended): every character of the synthesized filename satisfies the
code's own filter — alphanumeric in Python's Unicode sense (`pyIsAlnum`,
which admits letters such as `é`) or one of `. _ -`; when sanitization
yields the empty string the filename is the literal `downloaded_file`; and
the filename is never empty.  Restricted to ASCII inputs this gives exactly
`[A-Za-z0-9._-]`, but non-ASCII alphanumerics survive sanitization. -/
theorem c8_sanitized_filename (url : String) (rh : List (String × String)) :
    (synthFilename url rh).toList.all keepChar = true
  ∧ synthFilename url rh ≠ ""
  ∧ (∀ p, urlparse_path url = .ok p →
      pyStrip (sanitizeChars (preSanitizeName p rh)) = "" →
      synthFilename url rh = "downloaded_file") := by
  refine ⟨?_, ?_, ?_⟩
  · rcases hup : urlparse_path url with e | p
    · rcases e with ⟨⟩
      rw [synthFilename_err url rh hup]
      decide
    · rw [synthFilename_ok url p rh hup]
      unfold fallbackName
      by_cases hempty : pyStrip (sanitizeChars (preSanitizeName p rh)) = ""
      · rw [if_pos hempty]
        decide
      · rw [if_neg hempty]
        rw [List.all_eq_true]
        intro c hc
        exact mem_pyStrip_sanitize _ c hc
  · rcases hup : urlparse_path url with e | p
    · rcases e with ⟨⟩
      rw [synthFilename_err url rh hup]
      decide
    · rw [synthFilename_ok url p rh hup]
      unfold fallbackName
      by_cases hempty : pyStrip (sanitizeChars (preSanitizeName p rh)) = ""
      · rw [if_pos hempty]
        decide
      · rw [if_neg hempty]
        exact hempty
  · intro p hp hz
    rw [synthFilename_ok url p rh hp]
    unfold fallbackName
    rw [if_pos hz]

/-- Witness for C8 (amended): a path segment of tildes with a parameterised
content type sanitizes to the empty string and falls back to
`downloaded_file`. -/
theorem c8_sanitized_filename_witness :
    synthFilename "https://x.test/~~~"
      [("Content-Type", "video/mp4; charset=utf-8")] = "downloaded_file" :=
  (c8_sanitized_filename "https://x.test/~~~"
    [("Content-Type", "video/mp4; charset=utf-8")]).2.2 "/~~~"
    rfl (by decide)

/-- C10: the extension guess is fed the entire `Content-Type` value exactly
as copied into the outward headers — a value carrying parameters (any value
containing `;`) guesses no extension, leaving the stem unchanged — and when
upstream supplies no `Content-Type` at all the guess input is the default
string `application/octet-stream` while the outward streamed headers omit
`Content-Type`. -/
theorem c10_guess_input (url : String) (r : UpstreamResponse) (v : String) :
    (headerGetCI r.headers "content-type" = some v →
        dictGet (ctHeaderList r) "Content-Type" = some v)
  ∧ (';' ∈ v.toList → guess_extension v = none)
  ∧ (headerGetCI r.headers "content-type" = some v → ';' ∈ v.toList →
      ∀ p, pyBasename p ≠ "" →
        preSanitizeName p (ctHeaderList r) = stripQueryFragment (pyBasename p))
  ∧ (headerGetCI r.headers "content-type" = none →
        dictGet (buildStreamHeaders url r) "Content-Type" = none
      ∧ (dictGet (ctHeaderList r) "Content-Type").getD "application/octet-stream" =
          "application/octet-stream"
      ∧ ∀ p, preSanitizeName p (ctHeaderList r) =
          preSanitizeName p [("Content-Type", "application/octet-stream")]) := by
  refine ⟨?_, guess_extension_semicolon v, ?_, ?_⟩
  · intro h
    unfold ctHeaderList
    rw [h]
    simp [dictGet]
  · intro h hsemi p hb
    unfold preSanitizeName
    rw [if_pos hb]
    have hdg : dictGet (ctHeaderList r) "Content-Type" = some v := by
      unfold ctHeaderList
      rw [h]
      simp [dictGet]
    rw [hdg]
    simp only [Option.getD_some]
    rw [guess_extension_semicolon v hsemi]
  · intro h
    have hempty : ctHeaderList r = [] := by
      unfold ctHeaderList
      rw [h]
    refine ⟨?_, ?_, ?_⟩
    · rcases h2 : headerGetCI r.headers "content-disposition" with _ | v2 <;>
        rcases h3 : headerGetCI r.headers "content-length" with _ | v3 <;>
          simp [buildStreamHeaders, hempty, dictGet, h2, h3]
    · rw [hempty]
      rfl
    · intro p
      unfold preSanitizeName
      rw [hempty]
      rfl

/-- Witness for C10: a parameterised `Content-Type` guesses no extension and
leaves the stem `abc.def` unchanged, and an absent upstream `Content-Type`
is omitted from the outward streamed headers. -/
theorem c10_guess_input_witness :
    guess_extension "video/mp4; charset=utf-8" = none
  ∧ preSanitizeName "/p/abc.def"
      (ctHeaderList ⟨200, [("Content-Type", "video/mp4; charset=utf-8")], [],
        .ok ""⟩) = stripQueryFragment (pyBasename "/p/abc.def")
  ∧ dictGet (buildStreamHeaders "u" ⟨200, [], [], .ok ""⟩) "Content-Type" =
      none := by
  refine ⟨?_, ?_, ?_⟩
  · exact (c10_guess_input "u" ⟨200, [], [], .ok ""⟩
      "video/mp4; charset=utf-8").2.1 (by decide)
  · exact (c10_guess_input "u"
      ⟨200, [("Content-Type", "video/mp4; charset=utf-8")], [], .ok ""⟩
      "video/mp4; charset=utf-8").2.2.1 (by decide) (by decide) "/p/abc.def"
      (by decide)
  · exact ((c10_guess_input "u" ⟨200, [], [], .ok ""⟩ "x").2.2.2 (by decide)).1

end TeleSocialProxy
